import Mathlib

/-!
Verification development for the refuel_radar_transform ingestion pipeline
(src/lib.rs and src/station_struts.rs).

Modelling conventions, used throughout:

* JSON numbers (Rust `f64` / `serde_json::Number`) are modelled as exact
  rationals (`Rat`).  Floating-point rounding, underflow and the non-finite
  values (`inf`, `nan`) are outside the model: the string parser below returns
  `none` for non-finite literals, which is observably equivalent for every
  positivity filter except on a literal `"inf"`.
* `HashMap<String, _>` values are modelled as association lists
  `List (String × _)`; the claims under study are membership statements, which
  do not depend on the unordered representation.
* Rust's Unicode `trim` / `to_lowercase` / `char::is_whitespace` are modelled
  by their ASCII restrictions (`Char.toLower`, `Char.isWhitespace`), which
  agree with the originals on all ASCII input; every brand key and every
  timestamp in the repository is ASCII.
* Rust `Result` is `Except`; a Rust panic (`unwrap` on an `Err`) is modelled
  as a distinguished error constructor, since a panic aborts the computation
  exactly as an error short-circuit does in a pure model.
-/

/-- ASCII whitespace test: model of `char::is_whitespace` (chrono calls it
through `str::trim_start` before every numeric field and for `Item::Space`).
Restricted to the ASCII whitespace characters. -/
def isWs (c : Char) : Bool := c.isWhitespace

/-- Numeric value of an ASCII digit character. -/
def digitVal (c : Char) : Nat := c.toNat - 48

/-- The ASCII digit character of a value `d < 10`. -/
def digitChar (d : Nat) : Char := Char.ofNat (48 + d)

/-- Model of chrono's `scan::number` digit loop: consume up to `fuel` further
digits after the first, folding them into `acc`. -/
def scanDigits : Nat → Nat → List Char → Nat × List Char
  | 0, acc, l => (acc, l)
  | _ + 1, acc, [] => (acc, [])
  | fuel + 1, acc, c :: rest =>
    if c.isDigit then scanDigits fuel (acc * 10 + digitVal c) rest
    else (acc, c :: rest)

/-- Model of chrono's `scan::number(s, 1, width)`: at least one digit, at most
`width` digits, value and remaining input. -/
def scanNumber (width : Nat) : List Char → Option (Nat × List Char)
  | c :: rest =>
    if c.isDigit then some (scanDigits (width - 1) (digitVal c) rest) else none
  | [] => none

/-- Model of chrono's `Item::Literal`: the next character must be `c`. -/
def expectChar (c : Char) : List Char → Option (List Char)
  | x :: rest => if x = c then some rest else none
  | [] => none

/-- The six fields a `"%d/%m/%Y %H:%M:%S"` parse produces. -/
structure DateTimeParts where
  year : Nat
  month : Nat
  day : Nat
  hour : Nat
  minute : Nat
  second : Nat
deriving DecidableEq

/-- Field extraction of chrono's parse of the format string
`"%d/%m/%Y %H:%M:%S"`: items Day `/` Month `/` Year Space Hour `:` Minute `:`
Second, where every numeric item first skips leading whitespace and then reads
one to `width` digits (width 2, year width 4; signed years are outside the
model), and trailing input is an error (`TOO_LONG`). -/
def parseComponents (l : List Char) : Option DateTimeParts :=
  match scanNumber 2 (l.dropWhile isWs) with
  | none => none
  | some (d, l1) =>
  match expectChar '/' l1 with
  | none => none
  | some l2 =>
  match scanNumber 2 (l2.dropWhile isWs) with
  | none => none
  | some (mo, l3) =>
  match expectChar '/' l3 with
  | none => none
  | some l4 =>
  match scanNumber 4 (l4.dropWhile isWs) with
  | none => none
  | some (y, l5) =>
  match scanNumber 2 (l5.dropWhile isWs) with
  | none => none
  | some (h, l6) =>
  match expectChar ':' l6 with
  | none => none
  | some l7 =>
  match scanNumber 2 (l7.dropWhile isWs) with
  | none => none
  | some (mi, l8) =>
  match expectChar ':' l8 with
  | none => none
  | some l9 =>
  match scanNumber 2 (l9.dropWhile isWs) with
  | none => none
  | some (s, l10) =>
  if l10.isEmpty then some ⟨y, mo, d, h, mi, s⟩ else none

/-- Proleptic Gregorian leap year, as chrono's `NaiveDate` uses it. -/
def isLeapYear (y : Nat) : Bool := y % 4 == 0 && (y % 100 != 0 || y % 400 == 0)

/-- Days in a month of the proleptic Gregorian calendar. -/
def daysInMonth (y mo : Nat) : Nat :=
  if mo == 2 then (if isLeapYear y then 29 else 28)
  else if mo == 4 || mo == 6 || mo == 9 || mo == 11 then 30
  else 31

/-- Calendar validity: chrono's `NaiveDate::from_ymd_opt` on the parsed fields. -/
def validDate (y mo d : Nat) : Bool :=
  1 ≤ mo && mo ≤ 12 && 1 ≤ d && d ≤ daysInMonth y mo

/-- Time-of-day validity: chrono's `Parsed::to_naive_time`; second 60 is the
leap-second representation chrono accepts and prints back as 60. -/
def validTime (h mi s : Nat) : Bool := h ≤ 23 && mi ≤ 59 && s ≤ 60

/-- Two-digit zero-padded decimal rendering. -/
def pad2 (n : Nat) : List Char := [digitChar (n / 10), digitChar (n % 10)]

/-- Four-digit zero-padded decimal rendering. -/
def pad4 (n : Nat) : List Char :=
  [digitChar (n / 1000), digitChar (n / 100 % 10), digitChar (n / 10 % 10),
    digitChar (n % 10)]

/-- Model of `DateTime<Utc>::to_rfc3339` on a whole-second instant:
`YYYY-MM-DDTHH:MM:SS+00:00` (no fractional digits, explicit UTC offset). -/
def rfc3339Render (c : DateTimeParts) : String :=
  ⟨pad4 c.year ++ '-' :: pad2 c.month ++ '-' :: pad2 c.day ++ 'T' :: pad2 c.hour ++
    ':' :: pad2 c.minute ++ ':' :: pad2 c.second ++ ['+', '0', '0', ':', '0', '0']⟩

/-- Embedding of `parse_datetime` (src/lib.rs lines 182-189):
`NaiveDateTime::parse_from_str(dt_str, "%d/%m/%Y %H:%M:%S")`, the naive result
taken as UTC, rendered with `to_rfc3339`.  Field scanning and the subsequent
range resolution are modelled as two stages; chrono interleaves them, but the
observable result (which inputs parse, and to what) is the same. -/
def parse_datetime (dt_str : String) : Except String String :=
  match parseComponents dt_str.toList with
  | none => .error "input contains invalid characters"
  | some c =>
    if validDate c.year c.month c.day && validTime c.hour c.minute c.second then
      .ok (rfc3339Render c)
    else
      .error "input is out of range"

/-- The spec's fixed input pattern `day/month/year hour:minute:second` with
two-digit day, month, hour, minute, second and a four-digit year: the strict
rendering of a component tuple.  A string "matches the fixed pattern" exactly
when it is `strictRender c` for components `c` in range. -/
def strictRender (c : DateTimeParts) : String :=
  ⟨pad2 c.day ++ '/' :: pad2 c.month ++ '/' :: pad4 c.year ++ ' ' :: pad2 c.hour ++
    ':' :: pad2 c.minute ++ ':' :: pad2 c.second⟩

/-- Reading one digit back. -/
def readDigit : List Char → Option (Nat × List Char)
  | c :: rest => if c.isDigit then some (digitVal c, rest) else none
  | [] => none

/-- Reading exactly two digits back. -/
def read2 (l : List Char) : Option (Nat × List Char) :=
  match readDigit l with
  | none => none
  | some (a, l1) =>
    match readDigit l1 with
    | none => none
    | some (b, l2) => some (10 * a + b, l2)

/-- Reading exactly four digits back. -/
def read4 (l : List Char) : Option (Nat × List Char) :=
  match read2 l with
  | none => none
  | some (a, l1) =>
    match read2 l1 with
    | none => none
    | some (b, l2) => some (100 * a + b, l2)

/-- Strict reader of the timestamp-converter output shape
`YYYY-MM-DDTHH:MM:SS+00:00`: the restriction of an RFC 3339 reader
(chrono's `DateTime::parse_from_rfc3339`) to the shape `to_rfc3339` emits
here, used to state the round-trip property. -/
def rfc3339Parse (str : String) : Option DateTimeParts :=
  match read4 str.toList with
  | none => none
  | some (y, l1) =>
  match expectChar '-' l1 with
  | none => none
  | some l2 =>
  match read2 l2 with
  | none => none
  | some (mo, l3) =>
  match expectChar '-' l3 with
  | none => none
  | some l4 =>
  match read2 l4 with
  | none => none
  | some (d, l5) =>
  match expectChar 'T' l5 with
  | none => none
  | some l6 =>
  match read2 l6 with
  | none => none
  | some (h, l7) =>
  match expectChar ':' l7 with
  | none => none
  | some l8 =>
  match read2 l8 with
  | none => none
  | some (mi, l9) =>
  match expectChar ':' l9 with
  | none => none
  | some l10 =>
  match read2 l10 with
  | none => none
  | some (s, l11) =>
  if l11 = ['+', '0', '0', ':', '0', '0'] then some ⟨y, mo, d, h, mi, s⟩ else none

example : parse_datetime "27/11/2024 11:45:32" = .ok "2024-11-27T11:45:32+00:00" := by rfl
example : (parse_datetime "2024-11-27 11:45:32").isOk = false := by rfl
example : parse_datetime "5/6/2021 1:2:3" = .ok "2021-06-05T01:02:03+00:00" := by rfl
example : (parse_datetime "31/02/2024 11:45:32").isOk = false := by rfl
example : (parse_datetime "27/11/2024 24:45:32").isOk = false := by rfl
example : rfc3339Parse "2024-11-27T11:45:32+00:00" = some ⟨2024, 11, 27, 11, 45, 32⟩ := by rfl

/-- Digit run with accumulator and length: helper of the model of
`str::parse::<f64>`. -/
def takeDigits : Nat → Nat → List Char → Nat × Nat × List Char
  | acc, count, [] => (acc, count, [])
  | acc, count, c :: rest =>
    if c.isDigit then takeDigits (acc * 10 + digitVal c) (count + 1) rest
    else (acc, count, c :: rest)

/-- Exact power of ten with an integer exponent. -/
def qpow10 (e : Int) : Rat :=
  if 0 ≤ e then ((10 : Rat) ^ e.toNat) else 1 / (10 : Rat) ^ (-e).toNat

/-- Exponent tail of a float literal: `e`/`E`, an optional sign, digits, end. -/
def parseF64ExpTail (numer : Int) (scale : Nat) (l : List Char) : Option Rat :=
  let signed : Int × List Char :=
    match l with
    | '+' :: rest => (1, rest)
    | '-' :: rest => (-1, rest)
    | _ => (1, l)
  let (ev, ec, l2) := takeDigits 0 0 signed.2
  if ec == 0 || !l2.isEmpty then none
  else some ((numer : Rat) / 10 ^ scale * qpow10 (signed.1 * ev))

/-- After the significand: end of input, or an exponent part. -/
def parseF64Exp (numer : Int) (scale : Nat) : List Char → Option Rat
  | [] => some ((numer : Rat) / 10 ^ scale)
  | 'e' :: rest => parseF64ExpTail numer scale rest
  | 'E' :: rest => parseF64ExpTail numer scale rest
  | _ => none

/-- Model of Rust `str::parse::<f64>` on finite decimal literals: an optional
sign, then `Digits [. [Digits]] [Exp]` or `. Digits [Exp]`, evaluated exactly
over the rationals.  The non-finite literals `inf`, `infinity` and `nan` parse
in Rust but have no rational value; the model returns `none` for them (for the
strictly-positive price filter this is observably the same except on a literal
positive infinity, which no feed uses). -/
def parseF64 (s : String) : Option Rat :=
  let signed : Int × List Char :=
    match s.toList with
    | '+' :: rest => (1, rest)
    | '-' :: rest => (-1, rest)
    | _ => (1, s.toList)
  let (ip, ic, l2) := takeDigits 0 0 signed.2
  match l2 with
  | '.' :: rest =>
    let (fp, fc, l3) := takeDigits 0 0 rest
    if ic == 0 && fc == 0 then none
    else parseF64Exp (signed.1 * (ip * 10 ^ fc + fp)) fc l3
  | _ => if ic == 0 then none else parseF64Exp (signed.1 * ip) 0 l2

example : (parseF64 "51.5").isSome = true := by rfl
example : parseF64 "abc" = none := by rfl
example : parseF64 "" = none := by rfl
example : (parseF64 "-1.75").isSome = true := by rfl
example : (parseF64 "1e2").isSome = true := by rfl
example : (parseF64 "138.9").isSome = true := by rfl
example : parseF64 "." = none := by rfl
example : (parseF64 "1.").isSome = true := by rfl
example : (parseF64 "1e").isSome = false := by rfl
example : (parseF64 "nan").isSome = false := by rfl

/-- Model of `serde_json::Value` (numbers as exact rationals). -/
inductive Jval where
  | num (q : Rat)
  | str (s : String)
  | bool (b : Bool)
  | null
  | arr (elems : List Jval)
  | obj (fields : List (String × Jval))

namespace Lib

/-- Embedding of `F64OrString` (src/lib.rs lines 37-42): the untagged union a
coordinate deserializes into. -/
inductive F64OrString where
  | f64 (val : Rat)
  | str (s : String)
deriving DecidableEq

/-- Embedding of `F64OrString::as_f64` (src/lib.rs lines 44-51). -/
def F64OrString.as_f64 : F64OrString → Except String Rat
  | .f64 val => .ok val
  | .str s =>
    match parseF64 s with
    | some v => .ok v
    | none => .error "Failed to parse string to f64"

/-- Embedding of `RawLocation` (src/lib.rs lines 53-58). -/
structure RawLocation where
  latitude : F64OrString
  longitude : F64OrString
deriving DecidableEq

/-- Embedding of `RawStation` (src/lib.rs lines 26-35); `prices` is a
`HashMap<String, f64>`, modelled as an association list. -/
structure RawStation where
  site_id : String
  brand : String
  address : String
  postcode : String
  location : RawLocation
  prices : List (String × Rat)
deriving DecidableEq

/-- Embedding of `RawStationData` (src/lib.rs lines 19-24). -/
structure RawStationData where
  last_updated : String
  stations : List RawStation
deriving DecidableEq

/-- Embedding of `Location` (src/lib.rs lines 77-82). -/
structure Location where
  lat : Rat
  lon : Rat
deriving DecidableEq

/-- Embedding of `PriceEntry` (src/lib.rs lines 84-90). -/
structure PriceEntry where
  prices : List (String × Rat)
  last_updated : String
deriving DecidableEq

/-- Embedding of `Station` (src/lib.rs lines 66-75). -/
structure Station where
  site_id : String
  brand : String
  address : String
  postcode : String
  location : Location
  prices : List PriceEntry
deriving DecidableEq

/-- Embedding of `StationData` (src/lib.rs lines 60-64). -/
structure StationData where
  stations : List Station
deriving DecidableEq

/-- The outcomes of `convert_station_data`: its declared
`ConversionError::DateTimeParseError`, or the panic the `unwrap()` calls on
the coordinate coercions raise (src/lib.rs lines 159-160).  A panic aborts the
whole call, which a pure model renders as a distinguished error. -/
inductive ConversionError where
  | dateTimeParseError (msg : String)
  | panicked (msg : String)
deriving DecidableEq

/-- The closure of the `map` in `convert_station_data` (src/lib.rs lines
152-167): builds a `Station` from a `RawStation`, with `as_f64().unwrap()` on
both coordinates and a single `PriceEntry` holding the raw price map and the
shared converted timestamp. -/
def convertOne (last_updated : String) (raw_station : RawStation) :
    Except ConversionError Station :=
  match raw_station.location.latitude.as_f64 with
  | .error e => .error (.panicked e)
  | .ok lat =>
    match raw_station.location.longitude.as_f64 with
    | .error e => .error (.panicked e)
    | .ok lon =>
      .ok { site_id := raw_station.site_id
            brand := raw_station.brand
            address := raw_station.address
            postcode := raw_station.postcode
            location := { lat := lat, lon := lon }
            prices := [{ prices := raw_station.prices, last_updated := last_updated }] }

/-- The `collect::<Result<Vec<Station>, _>>()` over the mapped stations
(src/lib.rs lines 149-168): the first failure (here: the first panic) aborts,
order preserved. -/
def convertStations (last_updated : String) :
    List RawStation → Except ConversionError (List Station)
  | [] => .ok []
  | rs :: rest =>
    match convertOne last_updated rs with
    | .error e => .error e
    | .ok st =>
      match convertStations last_updated rest with
      | .error e => .error e
      | .ok sts => .ok (st :: sts)

/-- Embedding of `convert_station_data` (src/lib.rs lines 137-171): converts
the feed timestamp once, computes a brand-filtered copy of the station list
that is only printed and never used further, then maps every raw station
through `convertOne`. -/
def convert_station_data (raw_data : RawStationData) :
    Except ConversionError StationData :=
  match parse_datetime raw_data.last_updated with
  | .error e => .error (.dateTimeParseError e)
  | .ok last_updated =>
    let _filtered_stations :=
      raw_data.stations.filter fun entry => !entry.brand.isEmpty
    match convertStations last_updated raw_data.stations with
    | .error e => .error e
    | .ok stations => .ok { stations := stations }

/-- Embedding of `PartialJsonStructure` (src/lib.rs lines 13-17): the
structural pre-validation shape. -/
structure PartialJsonStructure where
  last_updated : String
  stations : List Jval

/-- The serde decode of `PartialJsonStructure` from a JSON value: an object
with a string `last_updated` and an array `stations` (unknown fields are
ignored, as serde does by default).  The text-to-value stage of
`serde_json::from_str` is abstracted: the model takes the parsed value. -/
def PartialJsonStructure.deserialize (v : Jval) : Option PartialJsonStructure :=
  match v with
  | .obj fields =>
    match fields.lookup "last_updated", fields.lookup "stations" with
    | some (.str lu), some (.arr sts) => some ⟨lu, sts⟩
    | _, _ => none
  | _ => none

/-- Embedding of `check_json_data_structure` (src/lib.rs lines 113-126): the
envelope must decode and its `stations` array must be non-empty. -/
def check_json_data_structure (data : Jval) : Bool :=
  match PartialJsonStructure.deserialize data with
  | some data_to_check => !data_to_check.stations.isEmpty
  | none => false

end Lib

example :
    Lib.convert_station_data
      { last_updated := "27/11/2024 11:45:32"
        stations := [{ site_id := "xxx", brand := "Bob", address := "A", postcode := "AB1 2CD"
                       location := { latitude := .f64 51, longitude := .f64 0 }
                       prices := [("SDV", 0)] }] }
      = .ok { stations := [{ site_id := "xxx", brand := "Bob", address := "A", postcode := "AB1 2CD"
                             location := { lat := 51, lon := 0 }
                             prices := [{ prices := [("SDV", 0)]
                                          last_updated := "2024-11-27T11:45:32+00:00" }] }] } := by
  rfl

example :
    Lib.convert_station_data
      { last_updated := "27/11/2024 11:45:32"
        stations := [{ site_id := "xxx", brand := "Bob", address := "A", postcode := "AB1 2CD"
                       location := { latitude := .str "abc", longitude := .f64 0 }
                       prices := [] }] }
      = .error (.panicked "Failed to parse string to f64") := by rfl

example :
    Lib.check_json_data_structure
      (.obj [("last_updated", .str "27/11/2024 11:45:32"), ("stations", .arr [])]) = false := by rfl

namespace StationStruts

/-- Embedding of `deserialize_string_to_f64` (src/station_struts.rs lines
22-39): a coordinate is a JSON string parsed as a float, or a JSON number
(`Number::as_f64` succeeds for every JSON number); any other type is an
error.  The source interpolates the parse error into its message; the model
keeps the fixed prefix. -/
def deserialize_string_to_f64 (value : Jval) : Except String Rat :=
  match value with
  | .str s =>
    match parseF64 s with
    | some v => .ok v
    | none => .error "Invalid coordinate"
  | .num num => .ok num
  | _ => .error "Invalid type for coordinate"

/-- Embedding of `Location` (src/station_struts.rs lines 13-19). -/
structure Location where
  latitude : Rat
  longitude : Rat
deriving DecidableEq

/-- The serde decode of `Location` from a JSON value, with both coordinate
fields going through `deserialize_string_to_f64` (src/station_struts.rs lines
13-19). -/
def Location.deserialize (v : Jval) : Except String Location :=
  match v with
  | .obj fields =>
    match fields.lookup "latitude" with
    | none => .error "missing field latitude"
    | some lv =>
      match deserialize_string_to_f64 lv with
      | .error e => .error e
      | .ok lat =>
        match fields.lookup "longitude" with
        | none => .error "missing field longitude"
        | some gv =>
          match deserialize_string_to_f64 gv with
          | .error e => .error e
          | .ok lon => .ok ⟨lat, lon⟩
  | _ => .error "invalid type for location"

/-- The coercion step of `deserialize_prices` (src/station_struts.rs lines
126-130): a JSON number as is, a JSON string through the float parser, any
other type `None`. -/
def priceCoerce : Jval → Option Rat
  | .num num => some num
  | .str s => parseF64 s
  | _ => none

/-- Embedding of `deserialize_prices` (src/station_struts.rs lines 118-135):
coerce each entry, keep it only when the value is strictly positive, drop it
silently otherwise.  Total: no error is possible once the price map itself has
deserialized. -/
def deserialize_prices (map : List (String × Jval)) : List (String × Rat) :=
  map.filterMap fun kv =>
    ((priceCoerce kv.2).filter fun v => decide (0 < v)).map fun v => (kv.1, v)

/-- Embedding of `PriceLastUpdated` (src/station_struts.rs lines 43-51). -/
structure PriceLastUpdated where
  prices : List (String × Rat)
  lu : String
deriving DecidableEq

/-- Embedding of `StationPrices` (src/station_struts.rs lines 156-164). -/
structure StationPrices where
  site_id : String
  brand : String
  address : String
  postcode : String
  location : Location
  prices : List (String × Rat)
deriving DecidableEq

/-- Embedding of `StationPriceLastUpdated` (src/station_struts.rs lines
73-81). -/
structure StationPriceLastUpdated where
  site_id : String
  brand : String
  address : String
  postcode : String
  location : Location
  prices : List PriceLastUpdated
deriving DecidableEq

/-- serde's decode of a required `String` field. -/
def decodeString : Option Jval → Except String String
  | some (.str s) => .ok s
  | some _ => .error "invalid type for a string field"
  | none => .error "missing field"

/-- serde's decode of an `Option<String>` field: an absent field and a JSON
null both give `none`; a present non-string non-null value is a type error. -/
def decodeOptString : Option Jval → Except String (Option String)
  | none => .ok none
  | some .null => .ok none
  | some (.str s) => .ok (some s)
  | some _ => .error "invalid type for an optional string field"

/-- The `location` field of `TempStationPrices`: required, decoded by
`Location`'s deserializer. -/
def decodeLocation : Option Jval → Except String Location
  | some lv => Location.deserialize lv
  | none => .error "missing field location"

/-- The `prices` field of `TempStationPrices`: required, a JSON object,
decoded by `deserialize_prices` (which cannot fail past that point). -/
def decodePrices : Option Jval → Except String (List (String × Rat))
  | some (.obj pfields) => .ok (deserialize_prices pfields)
  | some _ => .error "invalid type for prices"
  | none => .error "missing field prices"

end StationStruts

namespace StationStruts

/-- The trim of Rust `str::trim`, on character lists (ASCII whitespace). -/
def trimChars (l : List Char) : List Char :=
  ((l.dropWhile isWs).reverse.dropWhile isWs).reverse

/-- `brand.trim().to_lowercase()` of `format_brand`
(src/station_struts.rs line 276), ASCII lowercasing. -/
def brandKey (brand : String) : String := ⟨(trimChars brand.toList).map Char.toLower⟩

/-- The arms of `format_brand`'s match (src/station_struts.rs lines 277-295)
as a key-value table, in source order.  The match tests exact equality of the
trimmed-lowercased input against each literal key, so the chain of arms and a
first-match lookup in this table are the same function.  The value of the
`"harvest energy"` arm is the source's literal `"Harvest Engery"`. -/
def brandTable : List (String × String) :=
  [("applegreen", "Applegreen"), ("asda express", "ASDA Express"),
    ("asda", "ASDA"), ("bp", "BP"), ("coop", "Co Op"), ("essar", "Essar"),
    ("esso", "Esso"), ("gulf", "Gulf"), ("harvest energy", "Harvest Engery"),
    ("jet", "JET"), ("morrisons", "Morrisons"), ("murco", "Murco"),
    ("sainsbury\x27s", "Sainsbury\x27s"), ("shell", "Shell"),
    ("tesco", "Tesco"), ("texaco", "Texaco")]

/-- Embedding of `format_brand` (src/station_struts.rs lines 275-298): match
the trimmed, lowercased brand against the static table; an unmatched brand
falls through to the original, untrimmed input. -/
def format_brand (brand : String) : String :=
  match brandTable.lookup (brandKey brand) with
  | some v => v
  | none => brand

/-- The keys of `format_brand`'s match, in source order. -/
def brandKeys : List String := brandTable.map Prod.fst

/-- The values of `format_brand`'s match, in source order. -/
def brandValues : List String := brandTable.map Prod.snd

/-- Embedding of `impl Deserialize for StationPrices` (src/station_struts.rs
lines 199-230): decode the `TempStationPrices` fields (site_id, optional
brand, address, postcode, location through the coordinate coercer, prices
through the price filter), then reject a `None` brand with the error
`"brand is null"`, else format the brand and build the value. -/
def StationPrices.deserialize (v : Jval) : Except String StationPrices :=
  match v with
  | .obj fields =>
    match decodeString (fields.lookup "site_id") with
    | .error e => .error e
    | .ok site_id =>
    match decodeOptString (fields.lookup "brand") with
    | .error e => .error e
    | .ok brand =>
    match decodeString (fields.lookup "address") with
    | .error e => .error e
    | .ok address =>
    match decodeString (fields.lookup "postcode") with
    | .error e => .error e
    | .ok postcode =>
    match decodeLocation (fields.lookup "location") with
    | .error e => .error e
    | .ok location =>
    match decodePrices (fields.lookup "prices") with
    | .error e => .error e
    | .ok prices =>
    match brand with
    | none => .error "brand is null"
    | some b =>
      .ok { site_id := site_id, brand := format_brand b, address := address,
            postcode := postcode, location := location, prices := prices }
  | _ => .error "invalid type for a station record"

/-- Modelled from the spec: the Feed Processor's per-station step (spec 4.6
step 4) is not under src/ (only the per-station deserializer and the output
structures are); per the spec, every raw station is normalized, failures are
dropped without aborting the batch, the successes keep their input order, and
each surviving station gets one price block carrying the shared converted
feed timestamp. -/
def process_stations (ts : String) (stations : List Jval) :
    List StationPriceLastUpdated :=
  stations.filterMap fun v =>
    (StationPrices.deserialize v).toOption.map fun sp =>
      { site_id := sp.site_id, brand := sp.brand, address := sp.address,
        postcode := sp.postcode, location := sp.location,
        prices := [{ prices := sp.prices, lu := ts }] }

end StationStruts

example : StationStruts.format_brand "bp" = "BP" := by rfl
example : StationStruts.format_brand "  Sainsbury\x27s  " = "Sainsbury\x27s" := by rfl
example : StationStruts.format_brand "unknown brand" = "unknown brand" := by rfl
example : StationStruts.format_brand "harvest energy" = "Harvest Engery" := by rfl
example : StationStruts.format_brand " BP " = "BP" := by rfl

example :
    StationStruts.StationPrices.deserialize
      (.obj [("site_id", .str "xxx"), ("brand", .null), ("address", .str "A"),
             ("postcode", .str "AB1 2CD"),
             ("location", .obj [("latitude", .num 51), ("longitude", .num 0)]),
             ("prices", .obj [("E5", .num 138)])])
      = .error "brand is null" := by rfl

example :
    StationStruts.StationPrices.deserialize
      (.obj [("site_id", .str "xxx"), ("brand", .str "Bob"), ("address", .str "A"),
             ("postcode", .str "AB1 2CD"),
             ("location", .obj [("latitude", .num 51), ("longitude", .num 0)]),
             ("prices", .obj [("E5", .num 138), ("SDV", .num 0), ("X", .bool true)])])
      = .ok { site_id := "xxx", brand := "Bob", address := "A", postcode := "AB1 2CD",
              location := { latitude := 51, longitude := 0 },
              prices := [("E5", 138)] } := by rfl

theorem digitChar_isDigit {d : Nat} (h : d < 10) : (digitChar d).isDigit = true := by
  interval_cases d <;> rfl

theorem digitVal_digitChar {d : Nat} (h : d < 10) : digitVal (digitChar d) = d := by
  interval_cases d <;> rfl

theorem isWs_digitChar {d : Nat} (h : d < 10) : isWs (digitChar d) = false := by
  interval_cases d <;> rfl

theorem scanNumber_pad2 {n : Nat} (h : n < 100) (rest : List Char) :
    scanNumber 2 (pad2 n ++ rest) = some (n, rest) := by
  have h1 : n / 10 < 10 := by omega
  have h2 : n % 10 < 10 := by omega
  simp [pad2, scanNumber, scanDigits, digitChar_isDigit h1, digitChar_isDigit h2,
    digitVal_digitChar h1, digitVal_digitChar h2]
  omega

theorem scanNumber_pad4 {n : Nat} (h : n < 10000) (rest : List Char) :
    scanNumber 4 (pad4 n ++ rest) = some (n, rest) := by
  have h1 : n / 1000 < 10 := by omega
  have h2 : n / 100 % 10 < 10 := by omega
  have h3 : n / 10 % 10 < 10 := by omega
  have h4 : n % 10 < 10 := by omega
  simp [pad4, scanNumber, scanDigits, digitChar_isDigit h1, digitChar_isDigit h2,
    digitChar_isDigit h3, digitChar_isDigit h4, digitVal_digitChar h1,
    digitVal_digitChar h2, digitVal_digitChar h3, digitVal_digitChar h4]
  omega

theorem dropWhile_isWs_pad2 {n : Nat} (h : n < 100) (rest : List Char) :
    (pad2 n ++ rest).dropWhile isWs = pad2 n ++ rest := by
  have h1 : n / 10 < 10 := by omega
  simp [pad2, List.dropWhile_cons, isWs_digitChar h1]

theorem dropWhile_isWs_pad4 {n : Nat} (h : n < 10000) (rest : List Char) :
    (pad4 n ++ rest).dropWhile isWs = pad4 n ++ rest := by
  have h1 : n / 1000 < 10 := by omega
  simp [pad4, List.dropWhile_cons, isWs_digitChar h1]

theorem dropWhile_isWs_space (rest : List Char) :
    (' ' :: rest).dropWhile isWs = rest.dropWhile isWs := by
  simp [List.dropWhile_cons, show isWs ' ' = true from rfl]

theorem expectChar_cons (c : Char) (rest : List Char) :
    expectChar c (c :: rest) = some rest := by simp [expectChar]

theorem dropWhile_isWs_pad2_nil {n : Nat} (h : n < 100) :
    (pad2 n).dropWhile isWs = pad2 n := by
  simpa using dropWhile_isWs_pad2 h []

theorem scanNumber_pad2_nil {n : Nat} (h : n < 100) :
    scanNumber 2 (pad2 n) = some (n, []) := by
  simpa using scanNumber_pad2 h []

theorem parseComponents_strict (c : DateTimeParts) (hy : c.year < 10000)
    (hmo : c.month < 100) (hd : c.day < 100) (hh : c.hour < 100)
    (hmi : c.minute < 100) (hs : c.second < 100) :
    parseComponents (strictRender c).toList = some c := by
  obtain ⟨y, mo, d, h, mi, s⟩ := c
  simp only [strictRender, String.toList, List.append_assoc, List.cons_append] at *
  simp only [parseComponents, dropWhile_isWs_pad2 hd, scanNumber_pad2 hd,
    expectChar_cons, dropWhile_isWs_pad2 hmo, scanNumber_pad2 hmo,
    dropWhile_isWs_pad4 hy, scanNumber_pad4 hy, dropWhile_isWs_space,
    dropWhile_isWs_pad2 hh, scanNumber_pad2 hh, dropWhile_isWs_pad2 hmi,
    scanNumber_pad2 hmi, dropWhile_isWs_pad2_nil hs, scanNumber_pad2_nil hs,
    List.isEmpty_nil, if_true]

theorem readDigit_digitChar {d : Nat} (h : d < 10) (rest : List Char) :
    readDigit (digitChar d :: rest) = some (d, rest) := by
  simp [readDigit, digitChar_isDigit h, digitVal_digitChar h]

theorem read2_pad2 {n : Nat} (h : n < 100) (rest : List Char) :
    read2 (pad2 n ++ rest) = some (n, rest) := by
  have h1 : n / 10 < 10 := by omega
  have h2 : n % 10 < 10 := by omega
  simp [pad2, read2, readDigit_digitChar h1, readDigit_digitChar h2]
  omega

theorem read4_pad4 {n : Nat} (h : n < 10000) (rest : List Char) :
    read4 (pad4 n ++ rest) = some (n, rest) := by
  have h1 : n / 1000 < 10 := by omega
  have h2 : n / 100 % 10 < 10 := by omega
  have h3 : n / 10 % 10 < 10 := by omega
  have h4 : n % 10 < 10 := by omega
  simp [pad4, read4, read2, readDigit_digitChar h1, readDigit_digitChar h2,
    readDigit_digitChar h3, readDigit_digitChar h4]
  omega

theorem rfc3339Parse_render (c : DateTimeParts) (hy : c.year < 10000)
    (hmo : c.month < 100) (hd : c.day < 100) (hh : c.hour < 100)
    (hmi : c.minute < 100) (hs : c.second < 100) :
    rfc3339Parse (rfc3339Render c) = some c := by
  obtain ⟨y, mo, d, h, mi, s⟩ := c
  simp only [rfc3339Render, String.toList, List.append_assoc, List.cons_append] at *
  simp only [rfc3339Parse, String.toList, read4_pad4 hy, expectChar_cons,
    read2_pad2 hmo, read2_pad2 hd, read2_pad2 hh, read2_pad2 hmi, read2_pad2 hs,
    if_pos]

/-- The range side conditions that make a component tuple a calendar-valid
timestamp within the strict four-digit-year pattern. -/
def validParts (c : DateTimeParts) : Prop :=
  c.year < 10000 ∧ validDate c.year c.month c.day = true ∧
    validTime c.hour c.minute c.second = true

instance (c : DateTimeParts) : Decidable (validParts c) := by
  unfold validParts; infer_instance

theorem daysInMonth_le_31 (y mo : Nat) : daysInMonth y mo ≤ 31 := by
  unfold daysInMonth
  split_ifs <;> omega

theorem validParts_bounds {c : DateTimeParts} (h : validParts c) :
    c.year < 10000 ∧ c.month < 100 ∧ c.day < 100 ∧ c.hour < 100 ∧
      c.minute < 100 ∧ c.second < 100 := by
  obtain ⟨hy, hdate, htime⟩ := h
  have h31 := daysInMonth_le_31 c.year c.month
  simp only [validDate, validTime, Bool.and_eq_true, decide_eq_true_eq] at hdate htime
  omega

theorem parse_datetime_strict (c : DateTimeParts) (h : validParts c) :
    parse_datetime (strictRender c) = .ok (rfc3339Render c) := by
  obtain ⟨hy, hmo, hd, hh, hmi, hs⟩ := validParts_bounds h
  unfold parse_datetime
  rw [parseComponents_strict c hy hmo hd hh hmi hs]
  simp [h.2.1, h.2.2]

namespace Lib

theorem convertOne_ok {ts : String} {rs : RawStation} {st : Station}
    (h : convertOne ts rs = .ok st) :
    st.site_id = rs.site_id ∧ st.brand = rs.brand ∧ st.address = rs.address ∧
      st.postcode = rs.postcode ∧
      rs.location.latitude.as_f64 = .ok st.location.lat ∧
      rs.location.longitude.as_f64 = .ok st.location.lon ∧
      st.prices = [⟨rs.prices, ts⟩] := by
  unfold convertOne at h
  cases hlat : rs.location.latitude.as_f64 with
  | error e => rw [hlat] at h; exact absurd h (by simp)
  | ok lat =>
    rw [hlat] at h
    cases hlon : rs.location.longitude.as_f64 with
    | error e => rw [hlon] at h; exact absurd h (by simp)
    | ok lon =>
      rw [hlon] at h
      injection h with h
      subst h
      exact ⟨rfl, rfl, rfl, rfl, rfl, rfl, rfl⟩

theorem convertStations_ok {ts : String} {l : List RawStation} {ys : List Station}
    (h : convertStations ts l = .ok ys) :
    ys.length = l.length ∧
      ∀ i (h1 : i < l.length) (h2 : i < ys.length),
        convertOne ts (l.get ⟨i, h1⟩) = .ok (ys.get ⟨i, h2⟩) := by
  induction l generalizing ys with
  | nil =>
    unfold convertStations at h
    cases h
    exact ⟨rfl, fun i h1 _ => absurd h1 (by simp)⟩
  | cons rs rest ih =>
    unfold convertStations at h
    cases hone : convertOne ts rs with
    | error e => rw [hone] at h; exact absurd h (by simp)
    | ok st =>
      rw [hone] at h
      cases hrest : convertStations ts rest with
      | error e => rw [hrest] at h; exact absurd h (by simp)
      | ok sts =>
        rw [hrest] at h
        cases h
        obtain ⟨hlen, hget⟩ := ih hrest
        refine ⟨by simpa using hlen, ?_⟩
        intro i h1 h2
        match i with
        | 0 => simpa using hone
        | j + 1 =>
          simp only [List.get_cons_succ]
          exact hget j (by simpa using h1) (by simpa using h2)

theorem convert_station_data_ok {raw : RawStationData} {out : StationData}
    (h : convert_station_data raw = .ok out) :
    ∃ ts, parse_datetime raw.last_updated = .ok ts ∧
      convertStations ts raw.stations = .ok out.stations := by
  unfold convert_station_data at h
  cases hdt : parse_datetime raw.last_updated with
  | error e => rw [hdt] at h; exact absurd h (by simp)
  | ok ts =>
    rw [hdt] at h
    dsimp only at h
    cases hs : convertStations ts raw.stations with
    | error e => rw [hs] at h; exact absurd h (by simp)
    | ok sts =>
      rw [hs] at h
      injection h with h
      subst h
      exact ⟨ts, rfl, hs⟩

theorem convert_station_data_parse_error {raw : RawStationData} {e : String}
    (h : parse_datetime raw.last_updated = .error e) :
    convert_station_data raw = .error (.dateTimeParseError e) := by
  unfold convert_station_data
  rw [h]

end Lib

theorem exceptIsOk_exists {ε α : Type} {e : Except ε α} (h : e.isOk = true) :
    ∃ a, e = .ok a := by
  cases e with
  | error _ => simp [Except.isOk, Except.toBool] at h
  | ok a => exact ⟨a, rfl⟩

namespace StationStruts

theorem mem_deserialize_prices_iff (map : List (String × Jval)) (key : String)
    (v : Rat) :
    (key, v) ∈ deserialize_prices map ↔
      ∃ raw, (key, raw) ∈ map ∧ priceCoerce raw = some v ∧ 0 < v := by
  simp only [deserialize_prices, List.mem_filterMap]
  constructor
  · rintro ⟨⟨k, raw⟩, hmem, hf⟩
    cases hc : priceCoerce raw with
    | none => rw [hc] at hf; simp [Option.filter] at hf
    | some w =>
      rw [hc] at hf
      by_cases hw : 0 < w
      · simp only [Option.filter, hw, decide_True, if_true, Option.map_some',
          Option.some.injEq, Prod.mk.injEq] at hf
        obtain ⟨hk, hv⟩ := hf
        subst hk; subst hv
        exact ⟨raw, hmem, hc, hw⟩
      · simp [Option.filter, hw] at hf
  · rintro ⟨raw, hmem, hc, hv⟩
    refine ⟨(key, raw), hmem, ?_⟩
    simp [hc, Option.filter, hv]

theorem deserialize_brand_null {fields : List (String × Jval)}
    (hb : fields.lookup "brand" = none ∨ fields.lookup "brand" = some .null)
    (hsite : (decodeString (fields.lookup "site_id")).isOk = true)
    (haddr : (decodeString (fields.lookup "address")).isOk = true)
    (hpost : (decodeString (fields.lookup "postcode")).isOk = true)
    (hloc : (decodeLocation (fields.lookup "location")).isOk = true)
    (hpr : (decodePrices (fields.lookup "prices")).isOk = true) :
    StationPrices.deserialize (.obj fields) = .error "brand is null" := by
  obtain ⟨site, hsite⟩ := exceptIsOk_exists hsite
  obtain ⟨addr, haddr⟩ := exceptIsOk_exists haddr
  obtain ⟨post, hpost⟩ := exceptIsOk_exists hpost
  obtain ⟨loc, hloc⟩ := exceptIsOk_exists hloc
  obtain ⟨pr, hpr⟩ := exceptIsOk_exists hpr
  have hb2 : decodeOptString (fields.lookup "brand") = .ok none := by
    rcases hb with h | h <;> rw [h] <;> rfl
  simp only [StationPrices.deserialize, hsite, hb2, haddr, hpost, hloc, hpr]

theorem process_stations_skip (ts : String) {v : Jval} {e : String}
    (h : StationPrices.deserialize v = .error e) (pre post : List Jval) :
    process_stations ts (pre ++ v :: post) =
      process_stations ts pre ++ process_stations ts post := by
  unfold process_stations
  rw [List.filterMap_append, List.filterMap_cons]
  simp only [h, Except.toOption]
  rfl

theorem lookup_some_mem {l : List (String × String)} {k v : String}
    (h : l.lookup k = some v) : v ∈ l.map Prod.snd := by
  induction l with
  | nil => simp [List.lookup] at h
  | cons p rest ih =>
    rw [List.lookup] at h
    split at h
    · cases h; simp
    · simp [ih h]

theorem lookup_eq_none_of_not_mem {l : List (String × String)} {k : String}
    (h : k ∉ l.map Prod.fst) : l.lookup k = none := by
  induction l with
  | nil => rfl
  | cons p rest ih =>
    simp only [List.map_cons, List.mem_cons, not_or] at h
    rw [List.lookup]
    have hbeq : (k == p.1) = false := by simpa using h.1
    rw [hbeq]
    exact ih h.2

theorem format_brand_cases (b : String) :
    format_brand b ∈ brandValues ∨ format_brand b = b := by
  unfold format_brand
  cases h : brandTable.lookup (brandKey b) with
  | none => exact Or.inr rfl
  | some v => exact Or.inl (lookup_some_mem h)

theorem format_brand_fixed : ∀ v ∈ brandValues, format_brand v = v := by decide

theorem format_brand_idem (b : String) :
    format_brand (format_brand b) = format_brand b := by
  rcases format_brand_cases b with h | h
  · exact format_brand_fixed _ h
  · rw [h]; exact h

theorem format_brand_unknown {b : String} (h : brandKey b ∉ brandKeys) :
    format_brand b = b := by
  unfold format_brand
  rw [lookup_eq_none_of_not_mem h]

end StationStruts

/-! ## The claims -/

/-- C1 (amended): for every price mapping, the price filter
`deserialize_prices` retains exactly those entries whose raw value coerces to
a strictly positive number; non-coercible and non-positive entries are absent,
and no error is raised (the filter is a total function).  The lib.rs pipeline
`convert_station_data`, however, attaches the raw price map unfiltered (see
the counterexample). -/
theorem C1_price_filter_exact (map : List (String × Jval)) (key : String)
    (v : Rat) :
    (key, v) ∈ StationStruts.deserialize_prices map ↔
      ∃ raw, (key, raw) ∈ map ∧ StationStruts.priceCoerce raw = some v ∧ 0 < v :=
  StationStruts.mem_deserialize_prices_iff map key v

/-- C1 witness: a positive numeric entry is retained by the filter. -/
theorem C1_price_filter_exact_witness :
    ("E5", (138 : Rat)) ∈ StationStruts.deserialize_prices
      [("E5", .num 138), ("SDV", .num 0), ("X", .bool true)] :=
  (C1_price_filter_exact _ "E5" 138).mpr
    ⟨.num 138, List.mem_cons_self _ _, rfl, by norm_num⟩

/-- C1 counterexample: the output-producing pipeline under src/
(`convert_station_data`) keeps a zero-valued price ("SDV", 0) in the price
mapping attached to the output station, so the output does not contain only
strictly-positive entries. -/
theorem C1_counterexample_zero_price_in_output :
    Lib.convert_station_data
      { last_updated := "27/11/2024 11:45:32"
        stations := [{ site_id := "xxx", brand := "Bob", address := "A",
                       postcode := "AB1 2CD"
                       location := { latitude := .f64 51, longitude := .f64 0 }
                       prices := [("SDV", 0)] }] }
      = .ok { stations := [{ site_id := "xxx", brand := "Bob", address := "A",
                             postcode := "AB1 2CD"
                             location := { lat := 51, lon := 0 }
                             prices := [{ prices := [("SDV", 0)]
                                          last_updated := "2024-11-27T11:45:32+00:00" }] }] } ∧
      ¬(0 : Rat) > 0 :=
  ⟨by rfl, by norm_num⟩

/-- C2 (amended): for every feed `convert_station_data` accepts, every output
station carries exactly one price block, and that block timestamp equals the
feed single converted last_updated value, converted once per feed and shared;
no per-station timestamp exists (the only timestamp field is the shared one).
The non-empty-brand part of the original claim fails: an empty brand passes
through (see the counterexample). -/
theorem C2_one_shared_timestamp_block (raw : Lib.RawStationData)
    (out : Lib.StationData) (h : Lib.convert_station_data raw = .ok out) :
    ∃ ts, parse_datetime raw.last_updated = .ok ts ∧
      ∀ st ∈ out.stations, st.prices.length = 1 ∧
        ∀ pe ∈ st.prices, pe.last_updated = ts := by
  obtain ⟨ts, hts, hconv⟩ := Lib.convert_station_data_ok h
  obtain ⟨hlen, hget⟩ := Lib.convertStations_ok hconv
  refine ⟨ts, hts, ?_⟩
  intro st hst
  obtain ⟨⟨i, hi⟩, rfl⟩ := List.mem_iff_get.mp hst
  have h1 : i < raw.stations.length := by omega
  have hfields := Lib.convertOne_ok (hget i h1 hi)
  rw [hfields.2.2.2.2.2.2]
  exact ⟨rfl, by simp⟩

/-- C2 witness: a concrete accepted feed. -/
theorem C2_one_shared_timestamp_block_witness :
    ∃ ts, parse_datetime "27/11/2024 11:45:32" = .ok ts ∧
      ∀ st ∈ (Lib.StationData.mk
          [{ site_id := "xxx", brand := "Bob", address := "A", postcode := "AB1 2CD"
             location := { lat := 51, lon := 0 }
             prices := [{ prices := [("E5", 138)]
                          last_updated := "2024-11-27T11:45:32+00:00" }] }]).stations,
        st.prices.length = 1 ∧ ∀ pe ∈ st.prices, pe.last_updated = ts :=
  C2_one_shared_timestamp_block
    { last_updated := "27/11/2024 11:45:32"
      stations := [{ site_id := "xxx", brand := "Bob", address := "A",
                     postcode := "AB1 2CD"
                     location := { latitude := .f64 51, longitude := .f64 0 }
                     prices := [("E5", 138)] }] }
    _ (by rfl)

/-- C2 counterexample: a station with the empty-string brand converts
successfully and appears in the output with an empty brand, so not every
output station has a non-empty brand. -/
theorem C2_counterexample_empty_brand_station :
    Lib.convert_station_data
      { last_updated := "27/11/2024 11:45:32"
        stations := [{ site_id := "xxx", brand := "", address := "A",
                       postcode := "AB1 2CD"
                       location := { latitude := .f64 51, longitude := .f64 0 }
                       prices := [("E5", 138)] }] }
      = .ok { stations := [{ site_id := "xxx", brand := "", address := "A",
                             postcode := "AB1 2CD"
                             location := { lat := 51, lon := 0 }
                             prices := [{ prices := [("E5", 138)]
                                          last_updated := "2024-11-27T11:45:32+00:00" }] }] } := by
  rfl

/-- C3 (amended): a raw station record whose brand field is absent or JSON
null and whose remaining fields decode fails normalization with exactly the
error "brand is null"; a null-brand record whose other fields also fail to
decode still fails, but with the other field error, since the temp struct is
decoded before the brand check (see the counterexample).  Either way, every
record whose normalization fails contributes nothing to the batch output
(spec-modelled Feed Processor step) while the stations before and after it
are processed unchanged, so the batch still succeeds with a shorter
collection. -/
theorem C3_null_brand_station_skipped (fields : List (String × Jval))
    (hb : fields.lookup "brand" = none ∨ fields.lookup "brand" = some .null)
    (hsite : (StationStruts.decodeString (fields.lookup "site_id")).isOk = true)
    (haddr : (StationStruts.decodeString (fields.lookup "address")).isOk = true)
    (hpost : (StationStruts.decodeString (fields.lookup "postcode")).isOk = true)
    (hloc : (StationStruts.decodeLocation (fields.lookup "location")).isOk = true)
    (hpr : (StationStruts.decodePrices (fields.lookup "prices")).isOk = true) :
    StationStruts.StationPrices.deserialize (.obj fields) = .error "brand is null" ∧
      (∀ ts (pre post : List Jval),
        StationStruts.process_stations ts (pre ++ .obj fields :: post) =
          StationStruts.process_stations ts pre ++
            StationStruts.process_stations ts post) ∧
      ∀ (v : Jval) (e : String), StationStruts.StationPrices.deserialize v = .error e →
        ∀ ts (pre post : List Jval),
          StationStruts.process_stations ts (pre ++ v :: post) =
            StationStruts.process_stations ts pre ++
              StationStruts.process_stations ts post := by
  have herr := StationStruts.deserialize_brand_null hb hsite haddr hpost hloc hpr
  exact ⟨herr, fun ts pre post => StationStruts.process_stations_skip ts herr pre post,
    fun v e hv ts pre post => StationStruts.process_stations_skip ts hv pre post⟩

/-- C3 witness: a concrete null-brand record whose other fields decode. -/
theorem C3_null_brand_station_skipped_witness :
    StationStruts.StationPrices.deserialize
        (.obj [("site_id", .str "xxx"), ("brand", .null), ("address", .str "A"),
               ("postcode", .str "AB1 2CD"),
               ("location", .obj [("latitude", .num 51), ("longitude", .num 0)]),
               ("prices", .obj [("E5", .num 138)])])
      = .error "brand is null" ∧
      (∀ ts (pre post : List Jval),
        StationStruts.process_stations ts
            (pre ++ (.obj [("site_id", .str "xxx"), ("brand", .null), ("address", .str "A"),
               ("postcode", .str "AB1 2CD"),
               ("location", .obj [("latitude", .num 51), ("longitude", .num 0)]),
               ("prices", .obj [("E5", .num 138)])]) :: post) =
          StationStruts.process_stations ts pre ++
            StationStruts.process_stations ts post) ∧
      ∀ (v : Jval) (e : String), StationStruts.StationPrices.deserialize v = .error e →
        ∀ ts (pre post : List Jval),
          StationStruts.process_stations ts (pre ++ v :: post) =
            StationStruts.process_stations ts pre ++
              StationStruts.process_stations ts post :=
  C3_null_brand_station_skipped
    [("site_id", .str "xxx"), ("brand", .null), ("address", .str "A"),
      ("postcode", .str "AB1 2CD"),
      ("location", .obj [("latitude", .num 51), ("longitude", .num 0)]),
      ("prices", .obj [("E5", .num 138)])]
    (Or.inr rfl) rfl rfl rfl rfl rfl

/-- C3 counterexample: a record with a null brand AND an uncoercible latitude
fails the temp-struct decode first and errors with the coordinate message,
not with "brand is null" — the code checks brand only after the other fields
have decoded, so the claim message is wrong for such records. -/
theorem C3_counterexample_other_error_first :
    StationStruts.StationPrices.deserialize
        (.obj [("site_id", .str "xxx"), ("brand", .null), ("address", .str "A"),
               ("postcode", .str "AB1 2CD"),
               ("location", .obj [("latitude", .str "abc"), ("longitude", .num 0)]),
               ("prices", .obj [("E5", .num 138)])])
      = .error "Invalid coordinate" ∧
      "Invalid coordinate" ≠ "brand is null" :=
  ⟨by rfl, by decide⟩

/-- C4: the feed-level timestamp is converted before any station is looked
at, and when it fails to parse the whole batch fails with the typed
DateTimeParseError and no partial output exists, whatever the stations are. -/
theorem C4_bad_feed_timestamp_fatal (raw : Lib.RawStationData)
    (h : (parse_datetime raw.last_updated).isOk = false) :
    ∃ msg, Lib.convert_station_data raw = .error (.dateTimeParseError msg) := by
  cases hdt : parse_datetime raw.last_updated with
  | ok t => rw [hdt] at h; simp [Except.isOk, Except.toBool] at h
  | error e => exact ⟨e, Lib.convert_station_data_parse_error hdt⟩

/-- C4 witness: the wrong-separator timestamp of the spec scenario kills a
feed whose single station is individually valid. -/
theorem C4_bad_feed_timestamp_fatal_witness :
    ∃ msg, Lib.convert_station_data
      { last_updated := "2024-11-27 11:45:32"
        stations := [{ site_id := "xxx", brand := "Bob", address := "A",
                       postcode := "AB1 2CD"
                       location := { latitude := .f64 51, longitude := .f64 0 }
                       prices := [("E5", 138)] }] }
      = .error (.dateTimeParseError msg) :=
  C4_bad_feed_timestamp_fatal
    { last_updated := "2024-11-27 11:45:32"
      stations := [{ site_id := "xxx", brand := "Bob", address := "A",
                     postcode := "AB1 2CD"
                     location := { latitude := .f64 51, longitude := .f64 0 }
                     prices := [("E5", 138)] }] }
    (by rfl)

/-- C5: evaluation of the code at the failing input: the brand whose
trimmed-lowercased form is "harvest energy" is mapped to the misspelled
"Harvest Engery", not to the "Harvest Energy" the table of the spec assigns. -/
theorem C5_harvest_energy_eval :
    StationStruts.format_brand "harvest energy" = "Harvest Engery" ∧
      "Harvest Engery" ≠ "Harvest Energy" :=
  ⟨by rfl, by decide⟩

/-- C6: evaluation of the code at the failing input: in a three-station feed
whose middle station has a non-numeric latitude string, the coordinate
coercion failure is unwrapped into a panic that aborts the whole batch with
no output, instead of skipping that one station. -/
theorem C6_coordinate_failure_aborts_batch :
    Lib.convert_station_data
      { last_updated := "27/11/2024 11:45:32"
        stations :=
          [{ site_id := "aaa", brand := "Shell", address := "A", postcode := "P1"
             location := { latitude := .f64 51, longitude := .f64 0 }
             prices := [("E5", 140)] },
           { site_id := "bbb", brand := "BP", address := "B", postcode := "P2"
             location := { latitude := .str "abc", longitude := .f64 0 }
             prices := [("E5", 141)] },
           { site_id := "ccc", brand := "Esso", address := "C", postcode := "P3"
             location := { latitude := .f64 52, longitude := .f64 1 }
             prices := [("E5", 142)] }] }
      = .error (.panicked "Failed to parse string to f64") := by
  rfl

/-- C7 (amended): for every component tuple in range, the strictly rendered
two-digit-pattern input parses, the output denotes the same instant with an
explicit UTC offset, and reading the output back yields the same components
(round-trip); wrong separators and out-of-range components still fail.  The
original "fails for every input not matching the pattern exactly" part is
false: the parser is lenient about zero padding (see the counterexample). -/
theorem C7_strict_totality_roundtrip (c : DateTimeParts) (h : validParts c) :
    parse_datetime (strictRender c) = .ok (rfc3339Render c) ∧
      rfc3339Parse (rfc3339Render c) = some c ∧
      (parse_datetime "2024-11-27 11:45:32").isOk = false ∧
      (parse_datetime "99/99/2024 11:45:32").isOk = false := by
  obtain ⟨hy, hmo, hd, hh, hmi, hs⟩ := validParts_bounds h
  exact ⟨parse_datetime_strict c h, rfc3339Parse_render c hy hmo hd hh hmi hs,
    by rfl, by rfl⟩

/-- C7 witness: the timestamp the test fixtures of the repository use. -/
theorem C7_strict_totality_roundtrip_witness :
    parse_datetime (strictRender ⟨2024, 11, 27, 11, 45, 32⟩) =
        .ok (rfc3339Render ⟨2024, 11, 27, 11, 45, 32⟩) ∧
      rfc3339Parse (rfc3339Render ⟨2024, 11, 27, 11, 45, 32⟩) =
        some ⟨2024, 11, 27, 11, 45, 32⟩ ∧
      (parse_datetime "2024-11-27 11:45:32").isOk = false ∧
      (parse_datetime "99/99/2024 11:45:32").isOk = false :=
  C7_strict_totality_roundtrip ⟨2024, 11, 27, 11, 45, 32⟩ (by decide)

/-- C7 counterexample: an input with one-digit day, month, hour, minute and
second does not match the fixed two-digit pattern, yet conversion succeeds:
conversion does not fail on every input outside the pattern. -/
theorem C7_counterexample_lenient_parse :
    parse_datetime "5/6/2021 1:2:3" = .ok "2021-06-05T01:02:03+00:00" ∧
      "5/6/2021 1:2:3" ≠ strictRender ⟨2021, 6, 5, 1, 2, 3⟩ :=
  ⟨by rfl, by decide⟩

/-- C8 (amended): brand canonicalization is idempotent, an input whose
trimmed-lowercased form matches no key is returned exactly as given
(original casing and whitespace included), and every value of the table in
the code (which has "Harvest Engery") is a fixed point.  The original claim
that every value of the table of the spec is a fixed point fails on
"Harvest Energy" (see the counterexample). -/
theorem C8_idempotent_and_passthrough (b : String) :
    StationStruts.format_brand (StationStruts.format_brand b) =
        StationStruts.format_brand b ∧
      (StationStruts.brandKey b ∉ StationStruts.brandKeys →
        StationStruts.format_brand b = b) ∧
      ∀ v ∈ StationStruts.brandValues, StationStruts.format_brand v = v :=
  ⟨StationStruts.format_brand_idem b,
    fun h => StationStruts.format_brand_unknown h,
    StationStruts.format_brand_fixed⟩

/-- C8 witness: an unknown brand with mixed casing and whitespace passes
through exactly. -/
theorem C8_idempotent_and_passthrough_witness :
    StationStruts.format_brand "  BoB " = "  BoB " :=
  (C8_idempotent_and_passthrough "  BoB ").2.1 (by decide)

/-- C8 counterexample: canonicalizing "Harvest Energy" — a value of the
table of the spec — does not return it unchanged; the code maps it to its
misspelled "Harvest Engery". -/
theorem C8_counterexample_spec_table_value :
    StationStruts.format_brand "Harvest Energy" = "Harvest Engery" ∧
      StationStruts.format_brand "Harvest Energy" ≠ "Harvest Energy" :=
  ⟨by rfl, by decide⟩

/-- C9 (amended): a feed with an empty stations sequence converts to an
empty output collection with no error only when its timestamp converts;
there is no early return for empty stations, so with an unparsable timestamp
the conversion errors even though stations is empty (see the counterexample).
The structural pre-validation check_json_data_structure, moreover, rejects
every decoded envelope whose stations sequence is empty (returns false), so
the pre-check does not accept such a feed either. -/
theorem C9_empty_stations_accepted_by_conversion (raw : Lib.RawStationData)
    (h0 : raw.stations = []) (h1 : (parse_datetime raw.last_updated).isOk = true) :
    Lib.convert_station_data raw = .ok { stations := [] } ∧
      (∀ v p, Lib.PartialJsonStructure.deserialize v = some p → p.stations = [] →
        Lib.check_json_data_structure v = false) ∧
      ∀ (raw2 : Lib.RawStationData) (e : String), raw2.stations = [] →
        parse_datetime raw2.last_updated = .error e →
          Lib.convert_station_data raw2 = .error (.dateTimeParseError e) := by
  refine ⟨?_, ?_, ?_⟩
  · obtain ⟨ts, hts⟩ := exceptIsOk_exists h1
    unfold Lib.convert_station_data
    rw [hts]
    dsimp only
    rw [h0]
    rfl
  · intro v p hd hp
    simp only [Lib.check_json_data_structure, hd, hp]
    rfl
  · intro raw2 e _ he
    exact Lib.convert_station_data_parse_error he

/-- C9 witness: the empty feed with the fixture timestamp. -/
theorem C9_empty_stations_accepted_by_conversion_witness :
    Lib.convert_station_data { last_updated := "27/11/2024 11:45:32", stations := [] } =
        .ok { stations := [] } ∧
      (∀ v p, Lib.PartialJsonStructure.deserialize v = some p → p.stations = [] →
        Lib.check_json_data_structure v = false) ∧
      ∀ (raw2 : Lib.RawStationData) (e : String), raw2.stations = [] →
        parse_datetime raw2.last_updated = .error e →
          Lib.convert_station_data raw2 = .error (.dateTimeParseError e) :=
  C9_empty_stations_accepted_by_conversion
    { last_updated := "27/11/2024 11:45:32", stations := [] } rfl (by rfl)

/-- C9 counterexample: an envelope that decodes with stations = [] is
rejected by the structural pre-validation (it returns false); and an
empty-stations feed whose last_updated has the wrong separator errors in
conversion instead of returning an empty collection, because the timestamp is
converted before any emptiness handling.  Both refute "returns an empty
output collection and does not signal an error or reject the feed". -/
theorem C9_counterexample_empty_stations_rejected :
    Lib.PartialJsonStructure.deserialize
        (.obj [("last_updated", .str "27/11/2024 11:45:32"), ("stations", .arr [])])
      = some ⟨"27/11/2024 11:45:32", []⟩ ∧
    Lib.check_json_data_structure
        (.obj [("last_updated", .str "27/11/2024 11:45:32"), ("stations", .arr [])])
      = false ∧
    Lib.convert_station_data { last_updated := "2024-11-27 11:45:32", stations := [] }
      = .error (.dateTimeParseError "input contains invalid characters") :=
  ⟨by rfl, by rfl, by rfl⟩

/-- C10: whenever convert_station_data succeeds it outputs exactly one
station per input station, in input order, the i-th output built from the
i-th input: identifiers, brands (empty ones included), addresses and
postcodes pass through unchanged, coordinates are the coerced input
coordinates, and the price block carries the raw prices with the shared
timestamp — no station is ever dropped, so the brand-filtered list the
function computes has no effect on the output. -/
theorem C10_no_station_dropped (raw : Lib.RawStationData) (out : Lib.StationData)
    (h : Lib.convert_station_data raw = .ok out) :
    out.stations.length = raw.stations.length ∧
      ∃ ts, parse_datetime raw.last_updated = .ok ts ∧
        ∀ i (h1 : i < raw.stations.length) (h2 : i < out.stations.length),
          (out.stations.get ⟨i, h2⟩).site_id = (raw.stations.get ⟨i, h1⟩).site_id ∧
          (out.stations.get ⟨i, h2⟩).brand = (raw.stations.get ⟨i, h1⟩).brand ∧
          (out.stations.get ⟨i, h2⟩).address = (raw.stations.get ⟨i, h1⟩).address ∧
          (out.stations.get ⟨i, h2⟩).postcode = (raw.stations.get ⟨i, h1⟩).postcode ∧
          (raw.stations.get ⟨i, h1⟩).location.latitude.as_f64 =
            .ok (out.stations.get ⟨i, h2⟩).location.lat ∧
          (raw.stations.get ⟨i, h1⟩).location.longitude.as_f64 =
            .ok (out.stations.get ⟨i, h2⟩).location.lon ∧
          (out.stations.get ⟨i, h2⟩).prices =
            [⟨(raw.stations.get ⟨i, h1⟩).prices, ts⟩] := by
  obtain ⟨ts, hts, hconv⟩ := Lib.convert_station_data_ok h
  obtain ⟨hlen, hget⟩ := Lib.convertStations_ok hconv
  exact ⟨hlen, ts, hts, fun i h1 h2 => Lib.convertOne_ok (hget i h1 h2)⟩

/-- C10 witness: a two-station feed whose second station has an empty brand;
both stations survive into the output in order. -/
theorem C10_no_station_dropped_witness :
    (Lib.StationData.mk
        [{ site_id := "aaa", brand := "Shell", address := "A", postcode := "P1"
           location := { lat := 51, lon := 0 }
           prices := [{ prices := [("E5", 140)]
                        last_updated := "2024-11-27T11:45:32+00:00" }] },
         { site_id := "bbb", brand := "", address := "B", postcode := "P2"
           location := { lat := 52, lon := 1 }
           prices := [{ prices := [("E5", 141)]
                        last_updated := "2024-11-27T11:45:32+00:00" }] }]).stations.length =
      (Lib.RawStationData.mk "27/11/2024 11:45:32"
        [{ site_id := "aaa", brand := "Shell", address := "A", postcode := "P1"
           location := { latitude := .f64 51, longitude := .f64 0 }
           prices := [("E5", 140)] },
         { site_id := "bbb", brand := "", address := "B", postcode := "P2"
           location := { latitude := .f64 52, longitude := .f64 1 }
           prices := [("E5", 141)] }]).stations.length :=
  (C10_no_station_dropped
    (Lib.RawStationData.mk "27/11/2024 11:45:32"
      [{ site_id := "aaa", brand := "Shell", address := "A", postcode := "P1"
         location := { latitude := .f64 51, longitude := .f64 0 }
         prices := [("E5", 140)] },
       { site_id := "bbb", brand := "", address := "B", postcode := "P2"
         location := { latitude := .f64 52, longitude := .f64 1 }
         prices := [("E5", 141)] }])
    (Lib.StationData.mk
      [{ site_id := "aaa", brand := "Shell", address := "A", postcode := "P1"
         location := { lat := 51, lon := 0 }
         prices := [{ prices := [("E5", 140)]
                      last_updated := "2024-11-27T11:45:32+00:00" }] },
       { site_id := "bbb", brand := "", address := "B", postcode := "P2"
         location := { lat := 52, lon := 1 }
         prices := [{ prices := [("E5", 141)]
                      last_updated := "2024-11-27T11:45:32+00:00" }] }])
    (by rfl)).1
